import Mathlib

/-!
A shallow embedding of the two pipeline variants of this repository:
`app/main.py` (arXiv PDF download followed by a six-stage
plan/critique/regenerate pipeline) and `podcast_backend/main.py`
(abstract scraping followed by the analogous pipeline).

External collaborators — the arXiv client, PyPDF2, requests/BeautifulSoup,
and the OpenAI chat-completion endpoint — are black boxes per the spec, so
their outcomes are oracle inputs threaded through a `World` record. In
particular each LLM response text is represented by its `json.loads` view
(`Option Json`, with `none` for a `json.JSONDecodeError`) or by the raw
text where the source consumes raw text. Everything downstream of those
oracles (regex locator matching, page-loop extraction, parse/validation
logic, orchestration, HTTP status mapping, file cleanup) is translated
from the source.
-/

namespace Podcast

/-- JSON values: the result of a successful `json.loads` on a response text. -/
inductive Json where
  | null : Json
  | bool : Bool → Json
  | num : Int → Json
  | str : String → Json
  | arr : List Json → Json
  | obj : List (String × Json) → Json

/-- Python exceptions that cross function boundaries in the repository.
`validationError` stands for the raw exception raised by a pydantic model
constructor / `parse_raw` on schema-invalid data (pydantic `ValidationError`,
or `TypeError` for a non-mapping argument); `openAIError` for an exception
raised by `openai.ChatCompletion.create` itself. -/
inductive PyExc where
  | valueError : String → PyExc
  | runtimeError : String → PyExc
  | validationError : PyExc
  | openAIError : String → PyExc
deriving DecidableEq

/-- Python `str(e)`: the message carried by the exception. The text of a
pydantic validation error is library-generated; it is modelled by a fixed
placeholder, which no claim inspects. -/
def PyExc.message : PyExc → String
  | .valueError m => m
  | .runtimeError m => m
  | .validationError => "validation error"
  | .openAIError m => m

/-- The sampling configuration of one `openai.ChatCompletion.create` call. -/
structure CallConfig where
  model : String
  temperature : Rat
  max_tokens : Nat
deriving DecidableEq

/-! ### JSON field access, as performed by the pydantic model constructors -/

def lookupKey (fields : List (String × Json)) (k : String) : Option Json :=
  (fields.find? (fun p => p.1 == k)).map (fun p => p.2)

def Json.asStr : Json → Option String
  | .str s => some s
  | _ => none

def Json.asObj : Json → Option (List (String × Json))
  | .obj l => some l
  | _ => none

def Json.asStrList : Json → Option (List String)
  | .arr l => l.mapM Json.asStr
  | _ => none

def Json.asObjList : Json → Option (List (List (String × Json)))
  | .arr l => l.mapM Json.asObj
  | _ => none

/-- Python `str.strip()` on the ASCII whitespace characters. -/
def isPyWs (c : Char) : Bool :=
  c == ' ' || c == '\t' || c == '\n' || c == '\r' || c == '\x0b' || c == '\x0c'

def pyStrip (s : String) : String :=
  String.mk (((s.data.dropWhile isPyWs).reverse.dropWhile isPyWs).reverse)

end Podcast

namespace Podcast.App

/-! ### Data model of `app/main.py` (pydantic models) -/

structure PodcastPlan where
  project_overview : String
  tech_stack : List (String × Json)
  implementation_steps : List String
  additional_requirements : List String

structure Critique where
  feedback : String

structure PodcastScript where
  speakers : List String
  content : List (List (String × Json))

/-- `PodcastPlan(**plan_dict)`: succeeds exactly on a JSON object carrying the
four declared fields with the declared types (`tech_stack: dict` accepts any
object); any other shape raises the pydantic constructor's exception. -/
def validatePlan (j : Json) : Option PodcastPlan := do
  let fields ← j.asObj
  let po ← (lookupKey fields "project_overview").bind Json.asStr
  let ts ← (lookupKey fields "tech_stack").bind Json.asObj
  let steps ← (lookupKey fields "implementation_steps").bind Json.asStrList
  let reqs ← (lookupKey fields "additional_requirements").bind Json.asStrList
  pure ⟨po, ts, steps, reqs⟩

/-- `PodcastScript(**script_dict)`: `speakers: List[str]`, `content: List[dict]`.
No check relates the speaker names inside `content` to `speakers`. -/
def validateScript (j : Json) : Option PodcastScript := do
  let fields ← j.asObj
  let sp ← (lookupKey fields "speakers").bind Json.asStrList
  let co ← (lookupKey fields "content").bind Json.asObjList
  pure ⟨sp, co⟩

/-- The invariant claimed by the spec for scripts: every `"speaker"` entry of a
content item names a member of `speakers`. (Spec-side predicate; the source
has no corresponding check.) -/
def speakersConsistent (s : PodcastScript) : Bool :=
  s.content.all fun entry =>
    match lookupKey entry "speaker" with
    | some (.str name) => s.speakers.contains name
    | _ => true

/-! ### Utility functions of `app/main.py` -/

def DOWNLOAD_DIR : String := "arxiv_papers"

/-- One attempted match of `re.search(r"(\d+\.\d+)", url)` at the start of
`cs`: a maximal digit run, a dot, a maximal digit run. -/
def matchArxivAt (cs : List Char) : Option String :=
  let ds := cs.takeWhile Char.isDigit
  let rest := cs.dropWhile Char.isDigit
  if ds.isEmpty then none
  else
    match rest with
    | '.' :: rest2 =>
      let ds2 := rest2.takeWhile Char.isDigit
      if ds2.isEmpty then none else some (String.mk (ds ++ '.' :: ds2))
    | _ => none

def searchArxiv : List Char → Option String
  | [] => none
  | c :: rest =>
    match matchArxivAt (c :: rest) with
    | some s => some s
    | none => searchArxiv rest

/-- `extract_arxiv_id`: the leftmost match of `(\d+\.\d+)` in the URL, or
`None`. -/
def extract_arxiv_id (url : String) : Option String :=
  searchArxiv url.data

/-- `download_arxiv_paper`: `ValueError` when no arXiv id matches; otherwise
the oracle decides whether the download succeeded (returning the pdf path)
or raised, which the source wraps in a `RuntimeError`. The `os.makedirs`
side effect creates the download directory and is claim-irrelevant. -/
def download_arxiv_paper (downloadResult : Except String String) (url : String) :
    Except PyExc String :=
  match extract_arxiv_id url with
  | none => .error (.valueError ("Invalid arXiv URL: " ++ url))
  | some arxivId =>
    match downloadResult with
    | .ok pdfPath => .ok pdfPath
    | .error e =>
      .error (.runtimeError ("Error downloading paper with ID " ++ arxivId ++ ": " ++ e))

/-- The `for i, page in enumerate(reader.pages)` loop of
`extract_text_from_pdf`: `i >= max_pages` breaks, `page.extract_text() or ""`
turns an unreadable page (`None`, modelled `none`) into the empty string. -/
def extract_text_loop : List (Option String) → Nat → Nat → String
  | [], _, _ => ""
  | p :: rest, i, maxPages =>
    if maxPages ≤ i then ""
    else p.getD "" ++ extract_text_loop rest (i + 1) maxPages

/-- `extract_text_from_pdf`: the oracle gives either the page list of the
opened `PdfReader` (each page's `extract_text()` result, `none` for `None`)
or the message of the exception the reader raised, which the source wraps in
a `RuntimeError`. Note: no emptiness check is performed on the result. -/
def extract_text_from_pdf (reader : Except String (List (Option String)))
    (max_pages : Nat) : Except PyExc String :=
  match reader with
  | .error e => .error (.runtimeError ("Error extracting text from PDF: " ++ e))
  | .ok pages => .ok (extract_text_loop pages 0 max_pages)

/-! ### The six LLM stages of `app/main.py`

Each stage performs one `openai.ChatCompletion.create` call (outside any
`try`, so a transport exception propagates) and then consumes the response
text. The plan/script stages run `json.loads` plus the pydantic constructor
inside a `try` that catches only `json.JSONDecodeError`; a decode failure
becomes the stage's typed `ValueError`, while a schema-validation failure on
well-formed JSON escapes as the raw constructor exception. The critique
stages merely strip the text. -/

def planCall : CallConfig := ⟨"gpt-4o-2024-08-06", 0.3, 1500⟩
def planCritiqueCall : CallConfig := ⟨"gpt-4o-2024-08-06", 0.7, 1000⟩
def regenPlanCall : CallConfig := ⟨"gpt-4o-2024-08-06", 0.3, 1500⟩
def scriptCall : CallConfig := ⟨"gpt-4o-2024-08-06", 0.5, 3000⟩
def scriptCritiqueCall : CallConfig := ⟨"gpt-4o-2024-08-06", 0.7, 1000⟩
def regenScriptCall : CallConfig := ⟨"gpt-4o-2024-08-06", 0.3, 3000⟩

def generate_podcast_plan (resp : Except String (Option Json)) :
    Except PyExc PodcastPlan :=
  match resp with
  | .error e => .error (.openAIError e)
  | .ok none => .error (.valueError "Failed to parse podcast plan JSON.")
  | .ok (some j) =>
    match validatePlan j with
    | some p => .ok p
    | none => .error .validationError

def critique_plan (resp : Except String String) : Except PyExc Critique :=
  match resp with
  | .error e => .error (.openAIError e)
  | .ok t => .ok ⟨pyStrip t⟩

def regenerate_plan (resp : Except String (Option Json)) :
    Except PyExc PodcastPlan :=
  match resp with
  | .error e => .error (.openAIError e)
  | .ok none => .error (.valueError "Failed to parse regenerated podcast plan JSON.")
  | .ok (some j) =>
    match validatePlan j with
    | some p => .ok p
    | none => .error .validationError

def generate_podcast_script (resp : Except String (Option Json)) :
    Except PyExc PodcastScript :=
  match resp with
  | .error e => .error (.openAIError e)
  | .ok none => .error (.valueError "Failed to parse podcast script JSON.")
  | .ok (some j) =>
    match validateScript j with
    | some s => .ok s
    | none => .error .validationError

def critique_script (resp : Except String String) : Except PyExc Critique :=
  match resp with
  | .error e => .error (.openAIError e)
  | .ok t => .ok ⟨pyStrip t⟩

def regenerate_script (resp : Except String (Option Json)) :
    Except PyExc PodcastScript :=
  match resp with
  | .error e => .error (.openAIError e)
  | .ok none => .error (.valueError "Failed to parse regenerated podcast script JSON.")
  | .ok (some j) =>
    match validateScript j with
    | some s => .ok s
    | none => .error .validationError

/-! ### The `/create-podcast/` endpoint of `app/main.py` -/

/-- The oracle inputs of one request: the download outcome, the PDF reader
outcome, and the six LLM responses in stage order. -/
structure World where
  downloadResult : Except String String
  pdfPages : Except String (List (Option String))
  planResp : Except String (Option Json)
  planCritiqueResp : Except String String
  regenPlanResp : Except String (Option Json)
  scriptResp : Except String (Option Json)
  scriptCritiqueResp : Except String String
  regenScriptResp : Except String (Option Json)

/-- The JSON body returned on success. -/
structure Response where
  podcast_plan : PodcastPlan
  podcast_script : PodcastScript
  critique : String

/-- The observable outcome of one request: the HTTP response (success body, or
`HTTPException(status, detail)`), the files this run leaves in the download
directory, and the `ChatCompletion.create` calls it made, in order. -/
structure RunResult where
  response : Except (Nat × String) Response
  leftoverFiles : List String
  calls : List CallConfig

/-- `create_podcast`: the whole handler body runs inside one
`try: ... except Exception as e: raise HTTPException(500, str(e))`. The
downloaded PDF is removed only on the success path (the source comments the
removal as optional); every failure path leaves it in place. -/
def create_podcast (w : World) (url : String) : RunResult :=
  match download_arxiv_paper w.downloadResult url with
  | .error e => ⟨.error (500, e.message), [], []⟩
  | .ok pdf_path =>
    match extract_text_from_pdf w.pdfPages 5 with
    | .error e => ⟨.error (500, e.message), [pdf_path], []⟩
    | .ok _content =>
      match generate_podcast_plan w.planResp with
      | .error e => ⟨.error (500, e.message), [pdf_path], [planCall]⟩
      | .ok _initial_plan =>
        match critique_plan w.planCritiqueResp with
        | .error e => ⟨.error (500, e.message), [pdf_path], [planCall, planCritiqueCall]⟩
        | .ok _plan_critique =>
          match regenerate_plan w.regenPlanResp with
          | .error e =>
            ⟨.error (500, e.message), [pdf_path], [planCall, planCritiqueCall, regenPlanCall]⟩
          | .ok refined_plan =>
            match generate_podcast_script w.scriptResp with
            | .error e =>
              ⟨.error (500, e.message), [pdf_path],
                [planCall, planCritiqueCall, regenPlanCall, scriptCall]⟩
            | .ok _initial_script =>
              match critique_script w.scriptCritiqueResp with
              | .error e =>
                ⟨.error (500, e.message), [pdf_path],
                  [planCall, planCritiqueCall, regenPlanCall, scriptCall, scriptCritiqueCall]⟩
              | .ok script_critique =>
                match regenerate_script w.regenScriptResp with
                | .error e =>
                  ⟨.error (500, e.message), [pdf_path],
                    [planCall, planCritiqueCall, regenPlanCall, scriptCall,
                      scriptCritiqueCall, regenScriptCall]⟩
                | .ok final_script =>
                  ⟨.ok ⟨refined_plan, final_script, script_critique.feedback⟩, [],
                    [planCall, planCritiqueCall, regenPlanCall, scriptCall,
                      scriptCritiqueCall, regenScriptCall]⟩

/-- The schema-parsed view of the final (regeneration-stage) LLM response. -/
def parsedFinalScript (w : World) : Option PodcastScript :=
  match w.regenScriptResp with
  | .ok (some j) => validateScript j
  | _ => none

end Podcast.App

namespace Podcast.Backend

/-! ### Data model of `podcast_backend/main.py` (pydantic models) -/

structure PodcastPlan where
  title : String
  description : String
  segments : List String

structure Critique where
  feedback : String
  suggestions : List String

structure PodcastContent where
  speakers : List String
  content : List (List (String × Json))

/-- The response model of the endpoint. `duration_minutes: float` is modelled
as a rational; the only value the source ever assigns is the literal `12.5`,
which is exact in both representations. -/
structure FinalPodcastScript where
  title : String
  description : String
  speakers : List String
  script : List (List (String × Json))
  duration_minutes : Rat

/-- `PodcastPlan.parse_raw` validation on already-loaded JSON. -/
def validatePlan (j : Json) : Option PodcastPlan := do
  let fields ← j.asObj
  let t ← (lookupKey fields "title").bind Json.asStr
  let d ← (lookupKey fields "description").bind Json.asStr
  let seg ← (lookupKey fields "segments").bind Json.asStrList
  pure ⟨t, d, seg⟩

/-- `Critique.parse_raw` validation on already-loaded JSON. -/
def validateCritique (j : Json) : Option Critique := do
  let fields ← j.asObj
  let f ← (lookupKey fields "feedback").bind Json.asStr
  let sug ← (lookupKey fields "suggestions").bind Json.asStrList
  pure ⟨f, sug⟩

/-- `PodcastContent.parse_raw` validation on already-loaded JSON. -/
def validateContent (j : Json) : Option PodcastContent := do
  let fields ← j.asObj
  let sp ← (lookupKey fields "speakers").bind Json.asStrList
  let co ← (lookupKey fields "content").bind Json.asObjList
  pure ⟨sp, co⟩

/-- Every `call_openai` invocation uses `model="gpt-4"`, `temperature=0.7`,
`max_tokens=1500`. -/
def openaiCall : CallConfig := ⟨"gpt-4", 0.7, 1500⟩

/-- The final-script call at step 7 bypasses `call_openai` and uses
`max_tokens=2000`. -/
def finalScriptCall : CallConfig := ⟨"gpt-4", 0.7, 2000⟩

/-- `call_openai`: the API call and `response_format.parse_raw(content)` both
run inside one `try ... except Exception as e: raise ValueError(f"Error
communicating with OpenAI API: {e}")`, so every failure — transport, JSON
decode, or schema validation — surfaces as that one typed `ValueError`.
The `messages` argument only shapes the LLM response, which the oracle
already supplies, so it is not a parameter here. -/
def call_openai {α : Type} (resp : Except String (Option Json))
    (validate : Json → Option α) : Except PyExc α :=
  match resp with
  | .error e => .error (.valueError ("Error communicating with OpenAI API: " ++ e))
  | .ok none =>
    .error (.valueError ("Error communicating with OpenAI API: " ++
      PyExc.validationError.message))
  | .ok (some j) =>
    match validate j with
    | some v => .ok v
    | none =>
      .error (.valueError ("Error communicating with OpenAI API: " ++
        PyExc.validationError.message))

/-- `extract_arxiv_content`: requests + BeautifulSoup are external; the oracle
gives the abstract or the message of whatever exception was raised inside the
function's `try`, which the source wraps in a `ValueError`. -/
def extract_arxiv_content (fetchResult : Except String String) : Except PyExc String :=
  match fetchResult with
  | .error e => .error (.valueError ("Error extracting content from arXiv URL: " ++ e))
  | .ok abstract => .ok abstract

/-- The oracle inputs of one request to the abstract-scraping variant: the
scrape outcome and the six LLM responses in call order (five `call_openai`
calls, then the raw final-script call). -/
structure World where
  fetchResult : Except String String
  planResp : Except String (Option Json)
  critiqueResp : Except String (Option Json)
  revisedPlanResp : Except String (Option Json)
  contentResp : Except String (Option Json)
  contentCritiqueResp : Except String (Option Json)
  finalScriptResp : Except String String

/-- Outcome of one request: HTTP response and the calls made, in order. -/
structure RunResult where
  response : Except (Nat × String) FinalPodcastScript
  calls : List CallConfig

/-- `create_podcast` of `podcast_backend/main.py`. Step 1 failure → 400; every
later failure → 500 with the exception message as detail. Step 7 generates
`final_script_content` and then never uses it: the returned
`FinalPodcastScript` takes `speakers` and `script` from the step-5
`podcast_content` and hard-codes `duration_minutes=12.5`. -/
def create_podcast (w : World) : RunResult :=
  match extract_arxiv_content w.fetchResult with
  | .error e => ⟨.error (400, e.message), []⟩
  | .ok _abstract =>
    match call_openai w.planResp validatePlan with
    | .error e => ⟨.error (500, e.message), [openaiCall]⟩
    | .ok _podcast_plan =>
      match call_openai w.critiqueResp validateCritique with
      | .error e => ⟨.error (500, e.message), [openaiCall, openaiCall]⟩
      | .ok _critique =>
        match call_openai w.revisedPlanResp validatePlan with
        | .error e => ⟨.error (500, e.message), [openaiCall, openaiCall, openaiCall]⟩
        | .ok revised_podcast_plan =>
          match call_openai w.contentResp validateContent with
          | .error e =>
            ⟨.error (500, e.message), [openaiCall, openaiCall, openaiCall, openaiCall]⟩
          | .ok podcast_content =>
            match call_openai w.contentCritiqueResp validateCritique with
            | .error e =>
              ⟨.error (500, e.message),
                [openaiCall, openaiCall, openaiCall, openaiCall, openaiCall]⟩
            | .ok _content_critique =>
              match w.finalScriptResp with
              | .error e =>
                ⟨.error (500, "Error generating final script: " ++ e),
                  [openaiCall, openaiCall, openaiCall, openaiCall, openaiCall,
                    finalScriptCall]⟩
              | .ok _final_script_content =>
                ⟨.ok ⟨revised_podcast_plan.title, revised_podcast_plan.description,
                    podcast_content.speakers, podcast_content.content, 12.5⟩,
                  [openaiCall, openaiCall, openaiCall, openaiCall, openaiCall,
                    finalScriptCall]⟩

end Podcast.Backend

namespace Podcast

/-! ### `json.dumps` with `ensure_ascii=True`, as used to serialize context
into prompts (pydantic v1 `.json()` delegates to it: default separators
`", "`/`": "` without indent, `","`/`": "` with `indent=2`). -/

def hexDigit (n : Nat) : Char :=
  if n < 10 then Char.ofNat (48 + n) else Char.ofNat (87 + n)

def u4 (n : Nat) : String :=
  String.mk ['\\', 'u', hexDigit (n / 4096 % 16), hexDigit (n / 256 % 16),
    hexDigit (n / 16 % 16), hexDigit (n % 16)]

/-- The per-character escaping of the Python `json` encoder with
`ensure_ascii=True`: printable ASCII except `"` and backslash is literal,
the short escapes cover the usual controls, everything else becomes
`\uXXXX` (with surrogate pairs beyond the BMP). -/
def escapeChar (c : Char) : String :=
  if c = '"' then "\\\""
  else if c = '\\' then "\\\\"
  else if c = '\n' then "\\n"
  else if c = '\r' then "\\r"
  else if c = '\t' then "\\t"
  else if c = '\x08' then "\\b"
  else if c = '\x0c' then "\\f"
  else if c.toNat < 0x20 then u4 c.toNat
  else if c.toNat < 0x7f then String.singleton c
  else if c.toNat < 0x10000 then u4 c.toNat
  else
    u4 (0xd800 + (c.toNat - 0x10000) / 0x400) ++ u4 (0xdc00 + (c.toNat - 0x10000) % 0x400)

def jsonEscapeStr (s : String) : String :=
  "\"" ++ String.join (s.data.map escapeChar) ++ "\""

def indentOf (level : Nat) : String :=
  String.mk (List.replicate (2 * level) ' ')

mutual

def dumpsVal (level : Nat) : Json → String
  | .null => "null"
  | .bool b => if b then "true" else "false"
  | .num n => toString n
  | .str s => jsonEscapeStr s
  | .arr [] => "[]"
  | .arr (x :: xs) =>
    "[\n" ++ dumpsArrItems (level + 1) x xs ++ "\n" ++ indentOf level ++ "]"
  | .obj [] => "\x7b\x7d"
  | .obj ((k, v) :: fs) =>
    "\x7b\n" ++ dumpsObjItems (level + 1) k v fs ++ "\n" ++ indentOf level ++ "\x7d"
termination_by j => sizeOf j

def dumpsArrItems (level : Nat) (x : Json) : List Json → String
  | [] => indentOf level ++ dumpsVal level x
  | y :: ys => indentOf level ++ dumpsVal level x ++ ",\n" ++ dumpsArrItems level y ys
termination_by l => sizeOf x + sizeOf l

def dumpsObjItems (level : Nat) (k : String) (v : Json) : List (String × Json) → String
  | [] => indentOf level ++ jsonEscapeStr k ++ ": " ++ dumpsVal level v
  | (k2, v2) :: gs =>
    indentOf level ++ jsonEscapeStr k ++ ": " ++ dumpsVal level v ++ ",\n" ++
      dumpsObjItems level k2 v2 gs
termination_by l => sizeOf v + sizeOf l

end

/-- `json.dumps(x, indent=2)`. -/
def dumpsIndent2 (j : Json) : String := dumpsVal 0 j

mutual

def dumpcVal : Json → String
  | .null => "null"
  | .bool b => if b then "true" else "false"
  | .num n => toString n
  | .str s => jsonEscapeStr s
  | .arr [] => "[]"
  | .arr (x :: xs) => "[" ++ dumpcArrItems x xs ++ "]"
  | .obj [] => "\x7b\x7d"
  | .obj ((k, v) :: fs) => "\x7b" ++ dumpcObjItems k v fs ++ "\x7d"
termination_by j => sizeOf j

def dumpcArrItems (x : Json) : List Json → String
  | [] => dumpcVal x
  | y :: ys => dumpcVal x ++ ", " ++ dumpcArrItems y ys
termination_by l => sizeOf x + sizeOf l

def dumpcObjItems (k : String) (v : Json) : List (String × Json) → String
  | [] => jsonEscapeStr k ++ ": " ++ dumpcVal v
  | (k2, v2) :: gs => jsonEscapeStr k ++ ": " ++ dumpcVal v ++ ", " ++ dumpcObjItems k2 v2 gs
termination_by l => sizeOf v + sizeOf l

end

/-- `json.dumps(x)` with default arguments (what pydantic v1 `.json()` emits). -/
def dumpsCompact (j : Json) : String := dumpcVal j

/-- The six stages of the plan/script generation-critique-regeneration chain
(spec §4.2). -/
inductive Stage where
  | planInitial
  | planCritique
  | planRegenerate
  | scriptInitial
  | scriptCritique
  | scriptRegenerate

end Podcast

namespace Podcast.App

/-! ### Prompt construction of `app/main.py`

Each stage builds its prompt as an f-string over its inputs only. The
serialized context uses `plan.json(indent=2)` for plans and
`json.dumps(script.dict(), indent=2)` for scripts; pydantic v1 `.dict()`
and `.json()` emit the fields in declaration order. -/

def PodcastPlan.toJson (p : PodcastPlan) : Json :=
  .obj [("project_overview", .str p.project_overview),
    ("tech_stack", .obj p.tech_stack),
    ("implementation_steps", .arr (p.implementation_steps.map .str)),
    ("additional_requirements", .arr (p.additional_requirements.map .str))]

def PodcastScript.toJson (s : PodcastScript) : Json :=
  .obj [("speakers", .arr (s.speakers.map .str)),
    ("content", .arr (s.content.map .obj))]

/-- `plan.json(indent=2)`. -/
def planSerialized (p : PodcastPlan) : String := dumpsIndent2 p.toJson

/-- `json.dumps(script.dict(), indent=2)`. -/
def scriptSerialized (s : PodcastScript) : String := dumpsIndent2 s.toJson

def planPromptText (content : String) : String :=
  "\n    You are an expert podcast planner. Based on the following content, create a detailed podcast plan in JSON format.\n\n    Content:\n    "
    ++ content ++
    "\n\n    The plan should include:\n    - Project Overview\n    - Tech Stack\n    - Implementation Steps\n    - Additional Requirements\n\n    Example:\n    \x7b\n        \"project_overview\": \"A web application for managing personal finances\",\n        \"tech_stack\": \x7b\n            \"Frontend\": \"React.js with TypeScript\",\n            \"Backend\": \"Node.js with Express\",\n            \"Database\": \"MongoDB\",\n            \"Authentication\": \"JWT\",\n            \"Deployment\": \"Docker and Kubernetes\"\n        \x7d,\n        \"implementation_steps\": [\n            \"Set up project structure and version control\",\n            \"Implement user authentication and authorization\",\n            \"Design and implement database schema\",\n            \"Develop RESTful API endpoints\",\n            \"Create React components for UI\",\n            \"Implement state management with Redux\",\n            \"Integrate frontend with backend API\",\n            \"Add data visualization features\",\n            \"Implement user settings and preferences\",\n            \"Set up CI/CD pipeline\",\n            \"Deploy to production environment\"\n        ],\n        \"additional_requirements\": [\n            \"Responsive design for mobile and desktop\",\n            \"Accessibility compliance\",\n            \"Data encryption for sensitive information\",\n            \"Performance optimization\",\n            \"Unit and integration testing\"\n        ]\n    \x7d\n    "

def planCritiquePromptText (p : PodcastPlan) : String :=
  "\n    You are an expert in creating engaging podcasts. Critique the following podcast plan and provide suggestions to make it more appealing and understandable to a diverse audience.\n\n    Podcast Plan:\n    "
    ++ planSerialized p ++
    "\n\n    Provide detailed feedback and actionable recommendations.\n    "

def regenPlanPromptText (p : PodcastPlan) (c : Critique) : String :=
  "\n    Based on the following podcast plan and critique, regenerate the podcast plan to address the feedback and enhance its quality.\n\n    Original Podcast Plan:\n    "
    ++ planSerialized p ++
    "\n\n    Critique:\n    " ++ c.feedback ++
    "\n\n    Regenerated Podcast Plan:\n    "

def scriptPromptText (p : PodcastPlan) : String :=
  "\n    You are a professional podcast scriptwriter. Using the following podcast plan, generate a detailed podcast script in JSON format. The script should include a list of speakers and their respective content, ensuring that each speaker alternates and covers all key topics. The podcast should be 10-15 minutes long.\n\n    Podcast Plan:\n    "
    ++ planSerialized p ++
    "\n\n    The script should have the following structure:\n    \x7b\n        \"speakers\": [\"Speaker 1\", \"Speaker 2\"],\n        \"content\": [\n            \x7b\n                \"speaker\": \"Speaker 1\",\n                \"text\": \"...\"\n            \x7d,\n            \x7b\n                \"speaker\": \"Speaker 2\",\n                \"text\": \"...\"\n            \x7d,\n            ...\n        ]\n    \x7d\n    "

def scriptCritiquePromptText (s : PodcastScript) : String :=
  "\n    You are an expert podcast script reviewer. Critique the following podcast script and provide suggestions to make it more engaging, clear, and suitable for a 10-15 minute duration. Ensure that the content is understandable for individuals from all categories.\n\n    Podcast Script:\n    "
    ++ scriptSerialized s ++
    "\n\n    Provide detailed feedback and actionable recommendations.\n    "

def regenScriptPromptText (s : PodcastScript) (c : Critique) : String :=
  "\n    Based on the following podcast script and critique, regenerate the podcast script to address the feedback and enhance its quality. Ensure the podcast remains within a 10-15 minute duration and is accessible to a diverse audience.\n\n    Original Podcast Script:\n    "
    ++ scriptSerialized s ++
    "\n\n    Critique:\n    " ++ c.feedback ++
    "\n\n    Regenerated Podcast Script:\n    "

/-- The context a stage's prompt may draw on (spec §4.2: extracted content,
prior plan, prior critique, prior script). -/
structure PromptContext where
  content : String
  plan : PodcastPlan
  critique : Critique
  script : PodcastScript

/-- The Prompt Builder of the PDF variant: the (system, user) message pair
each stage sends, exactly as built by the corresponding source function. -/
def buildPrompt : Stage → PromptContext → String × String
  | .planInitial, ctx =>
    ("You are an expert podcast planner.", planPromptText ctx.content)
  | .planCritique, ctx =>
    ("You are an expert podcast critic.", planCritiquePromptText ctx.plan)
  | .planRegenerate, ctx =>
    ("You are an expert podcast planner.", regenPlanPromptText ctx.plan ctx.critique)
  | .scriptInitial, ctx =>
    ("You are a professional podcast scriptwriter.", scriptPromptText ctx.plan)
  | .scriptCritique, ctx =>
    ("You are an expert podcast script critic.", scriptCritiquePromptText ctx.script)
  | .scriptRegenerate, ctx =>
    ("You are a professional podcast scriptwriter.", regenScriptPromptText ctx.script ctx.critique)

end Podcast.App

namespace Podcast.Backend

/-! ### Message construction of `podcast_backend/main.py` (inline f-strings). -/

def PodcastPlan.toJson (p : PodcastPlan) : Json :=
  .obj [("title", .str p.title), ("description", .str p.description),
    ("segments", .arr (p.segments.map .str))]

def Critique.toJson (c : Critique) : Json :=
  .obj [("feedback", .str c.feedback), ("suggestions", .arr (c.suggestions.map .str))]

def PodcastContent.toJson (c : PodcastContent) : Json :=
  .obj [("speakers", .arr (c.speakers.map .str)), ("content", .arr (c.content.map .obj))]

/-- The context the six message lists may draw on. -/
structure PromptContext where
  abstract : String
  plan : PodcastPlan
  critique : Critique
  content : PodcastContent

/-- The Prompt Builder of the abstract-scraping variant: the (role, content)
message list each stage sends. `.json()` is the compact pydantic dump. -/
def buildMessages : Stage → PromptContext → List (String × String)
  | .planInitial, ctx =>
    [("system", "You are an expert podcast planner."),
     ("user", "Create a detailed podcast plan based on the following abstract:\n\n" ++ ctx.abstract)]
  | .planCritique, ctx =>
    [("system", "You are an expert podcast critic."),
     ("user", "Critique the following podcast plan and suggest improvements to make it understandable to people from all categories:\n\n" ++ dumpsCompact ctx.plan.toJson)]
  | .planRegenerate, ctx =>
    [("system", "You are an expert podcast planner."),
     ("user", "Based on the following critique, revise the podcast plan to make it more inclusive and understandable for a diverse audience:\n\nPlan:\n" ++ dumpsCompact ctx.plan.toJson ++ "\n\nCritique:\n" ++ dumpsCompact ctx.critique.toJson)]
  | .scriptInitial, ctx =>
    [("system", "You are an expert podcast content generator."),
     ("user", "Generate detailed podcast content based on the following plan. The podcast should ask a lot of questions and allow participants to answer them in a simple yet engaging way. Ensure it covers key topics suitable for a 10-15 minute duration.\n\nPlan:\n" ++ dumpsCompact ctx.plan.toJson)]
  | .scriptCritique, ctx =>
    [("system", "You are an expert podcast content critic."),
     ("user", "Review the following podcast content and advise how to make it better. Ensure the podcast is 10-15 minutes long and covers all key topics effectively.\n\nContent:\n" ++ dumpsCompact ctx.content.toJson)]
  | .scriptRegenerate, ctx =>
    [("system", "You are an expert podcast scriptwriter."),
     ("user", "Using the following podcast content and critique, regenerate the podcast script to be more engaging and clear for a diverse audience. Ensure the podcast is 10-15 minutes long and covers all key topics.\n\nContent:\n" ++ dumpsCompact ctx.content.toJson ++ "\n\nCritique:\n" ++ dumpsCompact ctx.critique.toJson)]

end Podcast.Backend

namespace Podcast

/-! ### Spec-side auxiliary definitions -/

/-- Spec-side: concatenation of page texts in page order, an unreadable page
contributing the empty string. -/
def concatTexts (pages : List (Option String)) : String :=
  pages.foldr (fun p acc => p.getD "" ++ acc) ""

/-! ### Concrete oracle worlds used as inputs of the closed theorems -/

def c1PlanJson : Json :=
  .obj [("title", .str "T"), ("description", .str "D"), ("segments", .arr [.str "s1"])]

def c1CritiqueJson : Json :=
  .obj [("feedback", .str "fine"), ("suggestions", .arr [.str "none"])]

def c1ContentJson : Json :=
  .obj [("speakers", .arr [.str "Host", .str "Guest"]),
    ("content", .arr [.obj [("speaker", .str "Host"), ("text", .str "draft line")]])]

/-- A fully successful run of the abstract-scraping variant whose step-7
regenerated script text differs from the step-5 draft content. -/
def c1World : Backend.World :=
  ⟨.ok "An abstract.", .ok (some c1PlanJson), .ok (some c1CritiqueJson),
    .ok (some c1PlanJson), .ok (some c1ContentJson), .ok (some c1CritiqueJson),
    .ok "A fully regenerated script that the handler discards"⟩

/-- Identical to `c1World` except the step-7 regenerated script text. -/
def c1WorldAlt : Backend.World :=
  ⟨.ok "An abstract.", .ok (some c1PlanJson), .ok (some c1CritiqueJson),
    .ok (some c1PlanJson), .ok (some c1ContentJson), .ok (some c1CritiqueJson),
    .ok "A different regenerated script"⟩

/-- A PDF-variant run that downloads successfully and then fails at the
plan-parse stage (the plan response text is not JSON). -/
def c2FailWorld : App.World :=
  ⟨.ok "arxiv_papers/2301.00001v1.Paper.pdf", .ok [some "Page text."], .ok none,
    .ok "Plan feedback", .ok none, .ok none, .ok "Script feedback", .ok none⟩

def c2PlanJson : Json :=
  .obj [("project_overview", .str "Overview"),
    ("tech_stack", .obj [("Frontend", .str "React")]),
    ("implementation_steps", .arr [.str "Step 1"]),
    ("additional_requirements", .arr [.str "Req 1"])]

def c2ScriptJson : Json :=
  .obj [("speakers", .arr [.str "Alice", .str "Bob"]),
    ("content", .arr [.obj [("speaker", .str "Alice"), ("text", .str "Hello")]])]

/-- A fully successful PDF-variant run. -/
def c2OkWorld : App.World :=
  ⟨.ok "arxiv_papers/x.pdf", .ok [some "Page text."], .ok (some c2PlanJson),
    .ok "Plan feedback", .ok (some c2PlanJson), .ok (some c2ScriptJson),
    .ok "Script feedback", .ok (some c2ScriptJson)⟩

/-- A world none of whose oracles is ever consulted (the locator is invalid). -/
def c3World : App.World :=
  ⟨.error "never reached", .error "never reached", .error "never reached",
    .error "never reached", .error "never reached", .error "never reached",
    .error "never reached", .error "never reached"⟩

def c3WitnessWorld : App.World :=
  ⟨.error "never reached", .error "never reached", .error "never reached",
    .error "never reached", .error "never reached", .error "never reached",
    .error "never reached", .error "never reached"⟩

def c4PlanJson : Json :=
  .obj [("project_overview", .str "Overview"),
    ("tech_stack", .obj [("Frontend", .str "React")]),
    ("implementation_steps", .arr [.str "Step 1"]),
    ("additional_requirements", .arr [.str "Req 1"])]

/-- A script whose content entry names the speaker "Bob" while the speakers
list contains only "Alice". -/
def c4ScriptJson : Json :=
  .obj [("speakers", .arr [.str "Alice"]),
    ("content", .arr [.obj [("speaker", .str "Bob"), ("text", .str "hi")]])]

/-- A fully successful PDF-variant run whose final script violates the
speaker-membership invariant. -/
def c4World : App.World :=
  ⟨.ok "arxiv_papers/p.pdf", .ok [some "Page text."], .ok (some c4PlanJson),
    .ok "Plan feedback", .ok (some c4PlanJson), .ok (some c4ScriptJson),
    .ok "Script feedback", .ok (some c4ScriptJson)⟩

def c5PlanJson : Json :=
  .obj [("project_overview", .str "Overview"),
    ("tech_stack", .obj [("Frontend", .str "React")]),
    ("implementation_steps", .arr [.str "Step 1"]),
    ("additional_requirements", .arr [.str "Req 1"])]

def c5ScriptJson : Json :=
  .obj [("speakers", .arr [.str "Alice"]),
    ("content", .arr [.obj [("speaker", .str "Alice"), ("text", .str "hi")]])]

/-- A PDF-variant run whose single page is unreadable (its `extract_text()`
returns `None`), so the extracted content is the empty string, and whose LLM
oracles then let the run succeed. -/
def c5World : App.World :=
  ⟨.ok "arxiv_papers/p.pdf", .ok [none], .ok (some c5PlanJson),
    .ok "Plan feedback", .ok (some c5PlanJson), .ok (some c5ScriptJson),
    .ok "Script feedback", .ok (some c5ScriptJson)⟩

def c7PlanJson : Json :=
  .obj [("title", .str "T"), ("description", .str "D"), ("segments", .arr [.str "s1"])]

def c7CritiqueJson : Json :=
  .obj [("feedback", .str "fine"), ("suggestions", .arr [.str "none"])]

def c7ContentJson : Json :=
  .obj [("speakers", .arr [.str "Host"]),
    ("content", .arr [.obj [("speaker", .str "Host"), ("text", .str "line")]])]

/-- A fully successful run of the abstract-scraping variant. -/
def c7World : Backend.World :=
  ⟨.ok "An abstract.", .ok (some c7PlanJson), .ok (some c7CritiqueJson),
    .ok (some c7PlanJson), .ok (some c7ContentJson), .ok (some c7CritiqueJson),
    .ok "Final script text"⟩

def c9AppCtx : App.PromptContext :=
  ⟨"Extracted content.",
    ⟨"Overview", [("Frontend", Json.str "React")], ["Step 1"], ["Req 1"]⟩,
    ⟨"Feedback"⟩,
    ⟨["Alice"], [[("speaker", Json.str "Alice"), ("text", Json.str "hi")]]⟩⟩

def c9BackendCtx : Backend.PromptContext :=
  ⟨"Abstract text.", ⟨"T", "D", ["s1"]⟩, ⟨"fine", ["none"]⟩,
    ⟨["Host"], [[("speaker", Json.str "Host"), ("text", Json.str "line")]]⟩⟩

def c10PlanJson : Json :=
  .obj [("title", .str "T"), ("description", .str "D"), ("segments", .arr [.str "s1"])]

def c10CritiqueJson : Json :=
  .obj [("feedback", .str "fine"), ("suggestions", .arr [.str "none"])]

def c10ContentJson : Json :=
  .obj [("speakers", .arr [.str "Host"]),
    ("content", .arr [.obj [("speaker", .str "Host"), ("text", .str "line")]])]

/-- A fully successful run of the abstract-scraping variant. -/
def c10World : Backend.World :=
  ⟨.ok "An abstract.", .ok (some c10PlanJson), .ok (some c10CritiqueJson),
    .ok (some c10PlanJson), .ok (some c10ContentJson), .ok (some c10CritiqueJson),
    .ok "Final script text"⟩

/-- The value a fully successful `c10World` run returns. -/
def c10Result : Backend.FinalPodcastScript :=
  ⟨"T", "D", ["Host"], [[("speaker", Json.str "Host"), ("text", Json.str "line")]], 12.5⟩

end Podcast

namespace Podcast

/-! ### Claim theorems -/

theorem extract_text_loop_eq (pages : List (Option String)) :
    ∀ i n, App.extract_text_loop pages i n = concatTexts (pages.take (n - i)) := by
  induction pages with
  | nil => intro i n; simp [App.extract_text_loop, concatTexts]
  | cons p rest ih =>
    intro i n
    unfold App.extract_text_loop
    by_cases h : n ≤ i
    · rw [if_pos h, Nat.sub_eq_zero_of_le h]
      simp [concatTexts]
    · rw [if_neg h]
      have h2 : n - i = (n - (i + 1)) + 1 := by omega
      rw [h2, List.take_succ_cons, ih (i + 1) n]
      simp [concatTexts]

/-- C8: for every PDF whose reader opens and every page budget N, text
extraction succeeds and returns the concatenation, in page order, of the
texts of at most the first N pages, an unreadable page (a `None` from
`extract_text()`) contributing the empty string. -/
theorem extraction_concatenates_first_pages (pages : List (Option String)) (n : Nat) :
    App.extract_text_from_pdf (.ok pages) n = .ok (concatTexts (pages.take n)) := by
  have hdef : App.extract_text_from_pdf (.ok pages) n =
      .ok (App.extract_text_loop pages 0 n) := rfl
  rw [hdef, extract_text_loop_eq pages 0 n]
  simp

/-- C9: for every stage, prompt construction in both variants is a pure
function of its context: two invocations on equal contexts yield byte-equal
system/user strings (PDF variant) and byte-equal message lists
(abstract-scraping variant). -/
theorem prompt_builder_deterministic (s : Stage)
    (a₁ a₂ : App.PromptContext) (b₁ b₂ : Backend.PromptContext)
    (ha : a₁ = a₂) (hb : b₁ = b₂) :
    App.buildPrompt s a₁ = App.buildPrompt s a₂ ∧
      Backend.buildMessages s b₁ = Backend.buildMessages s b₂ := by
  subst ha; subst hb; exact ⟨rfl, rfl⟩

theorem prompt_builder_deterministic_witness :
    App.buildPrompt .planInitial c9AppCtx = App.buildPrompt .planInitial c9AppCtx ∧
      Backend.buildMessages .planInitial c9BackendCtx =
        Backend.buildMessages .planInitial c9BackendCtx :=
  prompt_builder_deterministic .planInitial c9AppCtx c9AppCtx c9BackendCtx c9BackendCtx
    rfl rfl

/-- C10: every successful request to the abstract-scraping variant returns
`duration_minutes = 12.5`, the hard-coded literal, independent of all oracle
inputs. -/
theorem duration_always_12_5 (w : Backend.World) (r : Backend.FinalPodcastScript)
    (h : (Backend.create_podcast w).response = .ok r) :
    r.duration_minutes = 12.5 := by
  unfold Backend.create_podcast at h
  repeat' (split at h)
  all_goals (try simp_all)
  all_goals (subst h; rfl)

theorem duration_always_12_5_witness : c10Result.duration_minutes = 12.5 :=
  duration_always_12_5 c10World c10Result rfl

/-- C1: in the abstract-scraping variant the value returned to the caller
takes its `script` from the step-5 pre-critique `podcast_content`, and is
unchanged when the step-7 regenerated script text is replaced: the
regenerated script is computed and discarded, contradicting the claim that
PodcastScript₁ is what is returned. -/
theorem backend_returns_pre_critique_script :
    (Backend.create_podcast c1World).response =
      .ok ⟨"T", "D", ["Host", "Guest"],
        [[("speaker", Json.str "Host"), ("text", Json.str "draft line")]], 12.5⟩ ∧
    (Backend.create_podcast c1WorldAlt).response =
      .ok ⟨"T", "D", ["Host", "Guest"],
        [[("speaker", Json.str "Host"), ("text", Json.str "draft line")]], 12.5⟩ ∧
    c1World.finalScriptResp = .ok "A fully regenerated script that the handler discards" :=
  ⟨rfl, rfl, rfl⟩

end Podcast

namespace Podcast

/-- C2 counterexample: a PDF-variant run that downloads its paper and then
fails at the plan-parse stage returns an error response while the downloaded
PDF is still present in the download directory — the claimed unconditional
cleanup does not happen on failure paths. -/
theorem pdf_left_behind_on_failure :
    (App.create_podcast c2FailWorld "https://arxiv.org/abs/2301.00001").response =
      .error (500, "Failed to parse podcast plan JSON.") ∧
    (App.create_podcast c2FailWorld "https://arxiv.org/abs/2301.00001").leftoverFiles =
      ["arxiv_papers/2301.00001v1.Paper.pdf"] :=
  ⟨rfl, rfl⟩

/-- C2 amended: once the paper has been downloaded, the temporary PDF is
removed exactly when the run succeeds; on every failure exit after the
download it is left in the download directory. -/
theorem cleanup_only_on_success (w : App.World) (url : String) (p : String)
    (hd : w.downloadResult = .ok p) (hid : (App.extract_arxiv_id url).isSome = true) :
    (App.create_podcast w url).leftoverFiles =
      match (App.create_podcast w url).response with
      | .ok _ => []
      | .error _ => [p] := by
  obtain ⟨a, ha⟩ := Option.isSome_iff_exists.mp hid
  unfold App.create_podcast App.download_arxiv_paper
  rw [ha, hd]
  repeat' split
  all_goals (first | rfl | simp_all)

theorem cleanup_only_on_success_witness :
    (App.create_podcast c2OkWorld "https://arxiv.org/abs/2301.00001").leftoverFiles =
      match (App.create_podcast c2OkWorld "https://arxiv.org/abs/2301.00001").response with
      | .ok _ => []
      | .error _ => ["arxiv_papers/x.pdf"] :=
  cleanup_only_on_success c2OkWorld "https://arxiv.org/abs/2301.00001"
    "arxiv_papers/x.pdf" rfl rfl

/-- C3 counterexample: in the PDF variant a URL-shaped locator with no arXiv
id fails with status 500 — an internal-error status, not a 4xx client
error — though indeed before any gateway call. -/
theorem invalid_locator_returns_500 :
    (App.create_podcast c3World "https://example.com/paper").response =
      .error (500, "Invalid arXiv URL: https://example.com/paper") ∧
    (App.create_podcast c3World "https://example.com/paper").calls = [] ∧
    ¬(400 ≤ 500 ∧ 500 ≤ 499) :=
  ⟨rfl, rfl, by decide⟩

/-- C3 amended: an invalid locator fails before any gateway call (zero
invocations) in both variants, and internal failures surface as 500 with the
exception message as detail; but only the abstract-scraping variant maps the
locator/extraction failure to a 4xx (400) — the PDF variant returns 500 for
it, since its handler wraps every exception in `HTTPException(500, str(e))`. -/
theorem locator_failure_before_gateway :
    (∀ (w : App.World) (url : String), App.extract_arxiv_id url = none →
      (App.create_podcast w url).response =
        .error (500, "Invalid arXiv URL: " ++ url) ∧
      (App.create_podcast w url).calls = []) ∧
    (∀ (bw : Backend.World) (m : String), bw.fetchResult = .error m →
      (Backend.create_podcast bw).response =
        .error (400, "Error extracting content from arXiv URL: " ++ m) ∧
      (Backend.create_podcast bw).calls = []) ∧
    (∀ (w : App.World) (url : String) (st : Nat) (d : String),
      (App.create_podcast w url).response = .error (st, d) → st = 500) := by
  refine ⟨?_, ?_, ?_⟩
  · intro w url hid
    unfold App.create_podcast App.download_arxiv_paper
    rw [hid]
    exact ⟨rfl, rfl⟩
  · intro bw m hm
    unfold Backend.create_podcast Backend.extract_arxiv_content
    rw [hm]
    exact ⟨rfl, rfl⟩
  · intro w url st d h
    unfold App.create_podcast at h
    repeat' (split at h)
    all_goals simp_all

theorem locator_failure_before_gateway_witness :
    (App.create_podcast c3WitnessWorld "https://example.org/abs/no-id").response =
      .error (500, "Invalid arXiv URL: https://example.org/abs/no-id") ∧
    (App.create_podcast c3WitnessWorld "https://example.org/abs/no-id").calls = [] :=
  locator_failure_before_gateway.1 c3WitnessWorld "https://example.org/abs/no-id" rfl

/-- C4 counterexample: a successful PDF-variant run returns a script whose
content entry names speaker "Bob" while the speakers list is ["Alice"]; the
pipeline enforces no speaker-membership invariant. -/
theorem unknown_speaker_accepted :
    (App.create_podcast c4World "https://arxiv.org/abs/2301.00001").response =
      .ok ⟨⟨"Overview", [("Frontend", Json.str "React")], ["Step 1"], ["Req 1"]⟩,
        ⟨["Alice"], [[("speaker", Json.str "Bob"), ("text", Json.str "hi")]]⟩,
        "Script feedback"⟩ ∧
    App.speakersConsistent
      ⟨["Alice"], [[("speaker", Json.str "Bob"), ("text", Json.str "hi")]]⟩ = false :=
  ⟨rfl, rfl⟩

theorem parsedFinalScript_of_regen (w : App.World) (s : App.PodcastScript)
    (h : App.regenerate_script w.regenScriptResp = .ok s) :
    App.parsedFinalScript w = some s := by
  unfold App.parsedFinalScript
  unfold App.regenerate_script at h
  repeat' (split at h)
  all_goals simp_all

/-- C4 amended: the script a successful run returns is exactly the
schema-parsed final LLM response, passed through without any
speaker-membership validation; the invariant therefore holds only when that
response happens to satisfy it. -/
theorem final_script_is_parsed_llm_output (w : App.World) (url : String)
    (r : App.Response) (h : (App.create_podcast w url).response = .ok r) :
    App.parsedFinalScript w = some r.podcast_script := by
  unfold App.create_podcast at h
  repeat' (split at h)
  all_goals (try simp_all)
  all_goals (subst h; exact parsedFinalScript_of_regen _ _ (by assumption))

theorem final_script_is_parsed_llm_output_witness :
    App.parsedFinalScript c4World =
      some ⟨["Alice"], [[("speaker", Json.str "Bob"), ("text", Json.str "hi")]]⟩ :=
  final_script_is_parsed_llm_output c4World "https://arxiv.org/abs/2301.00001"
    ⟨⟨"Overview", [("Frontend", Json.str "React")], ["Step 1"], ["Req 1"]⟩,
      ⟨["Alice"], [[("speaker", Json.str "Bob"), ("text", Json.str "hi")]]⟩,
      "Script feedback"⟩ rfl

/-- C5 counterexample: a PDF whose only page is unreadable extracts to the
empty string with a success result, and the pipeline proceeds to a fully
successful run instead of failing with an extraction error. -/
theorem empty_extraction_succeeds :
    App.extract_text_from_pdf (.ok [none]) 5 = .ok "" ∧
    (App.create_podcast c5World "https://arxiv.org/abs/2301.00001").response =
      .ok ⟨⟨"Overview", [("Frontend", Json.str "React")], ["Step 1"], ["Req 1"]⟩,
        ⟨["Alice"], [[("speaker", Json.str "Alice"), ("text", Json.str "hi")]]⟩,
        "Script feedback"⟩ :=
  ⟨rfl, rfl⟩

/-- C5 amended: whenever the PDF reader opens the file, extraction succeeds
with the (possibly empty) page-text concatenation — no emptiness check
exists — and the pipeline then proceeds to the LLM stages regardless of
whether the extracted content is empty. -/
theorem extraction_never_checks_emptiness :
    (∀ (pages : List (Option String)) (n : Nat),
      ∃ s, App.extract_text_from_pdf (.ok pages) n = .ok s) ∧
    (∀ (w : App.World) (url : String) (a p : String) (pages : List (Option String)),
      App.extract_arxiv_id url = some a → w.downloadResult = .ok p →
      w.pdfPages = .ok pages → (App.create_podcast w url).calls ≠ []) := by
  constructor
  · intro pages n; exact ⟨_, rfl⟩
  · intro w url a p pages ha hd hp
    unfold App.create_podcast App.download_arxiv_paper
    rw [ha, hd, hp]
    repeat' split
    all_goals simp_all [App.extract_text_from_pdf]

theorem extraction_never_checks_emptiness_witness :
    (App.create_podcast c5World "https://arxiv.org/abs/2301.00001").calls ≠ [] :=
  extraction_never_checks_emptiness.2 c5World "https://arxiv.org/abs/2301.00001"
    "2301.00001" "arxiv_papers/p.pdf" [none] rfl rfl rfl

/-- C6 counterexample: a response text that is valid JSON of the wrong shape
(the array `[1, 2]`) escapes the plan decode step as the raw pydantic
constructor exception, not as the typed parse `ValueError` — the stage's
`try` catches only `json.JSONDecodeError`. -/
theorem schema_failure_escapes_decode :
    App.generate_podcast_plan (.ok (some (.arr [.num 1, .num 2]))) =
      .error .validationError ∧
    (PyExc.validationError ≠ .valueError "Failed to parse podcast plan JSON.") :=
  ⟨rfl, by decide⟩

/-- C6 amended: in the PDF variant, only a JSON-decode failure yields the
stage's typed parse error; well-formed JSON that fails schema validation
raises the raw constructor exception past the decode step (caught only by
the endpoint's catch-all as a 500), and a successful decode is always the
fully validated object. In the abstract-scraping variant `call_openai` wraps
every failure in its one typed `ValueError`. -/
theorem decode_error_discipline :
    (App.generate_podcast_plan (.ok none) =
      .error (.valueError "Failed to parse podcast plan JSON.")) ∧
    (∀ j : Json, App.validatePlan j = none →
      App.generate_podcast_plan (.ok (some j)) = .error .validationError) ∧
    (∀ (j : Json) (p : App.PodcastPlan),
      App.generate_podcast_plan (.ok (some j)) = .ok p → App.validatePlan j = some p) ∧
    (∀ (α : Type) (validate : Json → Option α) (resp : Except String (Option Json))
      (e : PyExc), Backend.call_openai resp validate = .error e →
        ∃ m, e = .valueError m) := by
  refine ⟨rfl, ?_, ?_, ?_⟩
  · intro j hj
    simp [App.generate_podcast_plan, hj]
  · intro j p h
    unfold App.generate_podcast_plan at h
    repeat' (split at h)
    all_goals simp_all
  · intro α validate resp e h
    unfold Backend.call_openai at h
    repeat' (split at h)
    all_goals (simp at h <;> exact ⟨_, h.symm⟩)

theorem decode_error_discipline_witness :
    App.generate_podcast_plan (.ok (some (Json.str "not a plan"))) =
      .error .validationError :=
  decode_error_discipline.2.1 (Json.str "not a plan") rfl

/-- C7 counterexample: on a successful abstract-scraping run the six calls
use max-token ceilings [1500, 1500, 1500, 1500, 1500, 2000]; in particular
the critique stages (second and fifth calls) use 1500, not the claimed 1000,
and the final script call uses 2000, not the claimed 3000. -/
theorem backend_token_ceilings_differ :
    ((Backend.create_podcast c7World).calls.map CallConfig.max_tokens) =
      [1500, 1500, 1500, 1500, 1500, 2000] ∧
    (1500 : Nat) ≠ 1000 ∧ (2000 : Nat) ≠ 3000 :=
  ⟨rfl, by decide, by decide⟩

/-- C7 amended: in the PDF variant every pipeline run's call sequence uses
the stage ceilings 1500/1000/1500/3000/1000/3000 as the claim states; in the
abstract-scraping variant every `call_openai` stage uses 1500 and the final
script call uses 2000, whatever the stage. -/
theorem token_ceilings_per_variant :
    (∀ (w : App.World) (url : String),
      ((App.create_podcast w url).calls.map CallConfig.max_tokens).isPrefixOf
        [1500, 1000, 1500, 3000, 1000, 3000] = true) ∧
    (∀ bw : Backend.World,
      ((Backend.create_podcast bw).calls.map CallConfig.max_tokens).isPrefixOf
        [1500, 1500, 1500, 1500, 1500, 2000] = true) := by
  constructor
  · intro w url
    unfold App.create_podcast
    repeat' split
    all_goals rfl
  · intro bw
    unfold Backend.create_podcast
    repeat' split
    all_goals rfl

end Podcast
